import Mathlib

/-!
Shallow embedding of the simulation core of `src/rts/rts.py` (single-file
RTS game): entity model, player resource accounting, combat resolution,
production queues, movement integration and building placement.

Python floats are modelled as `ℚ`, Python ints as `ℤ`, Python lists as
`List`.  `random.randint(0, 1)` draws are passed in explicitly as an
integer argument constrained to `{0, 1}` in the theorems.  Python's
`int(...)` truncation toward zero is `pyInt`.
-/

namespace RTS

/-- `tick_scale(dt) = dt * NOMINAL_TICK_HZ` with `NOMINAL_TICK_HZ = 60.0`. -/
def tick_scale (dt : ℚ) : ℚ := dt * 60

/-- `clamp(v, lo, hi)` from rts.py: `lo if v < lo else hi if v > hi else v`. -/
def clamp (v lo hi : ℚ) : ℚ := if v < lo then lo else if v > hi then hi else v

/-- Python `int(q)`: truncation toward zero (floor for nonnegative values,
ceiling for negative ones). -/
def pyInt (q : ℚ) : ℤ := if 0 ≤ q then q.floor else q.ceil

/-- The concrete unit classes of rts.py, flattened from the class tree. -/
inductive UnitKind
  | builder | spearman | swordsman | horseman | brianBoru | sigurd
  | barracks | stables | comandCenter | tara | supplyDepot
  deriving DecidableEq

/-- `isinstance(u, Hero)`: `BrianBoru` and `Sigurd` derive from `Hero`. -/
def UnitKind.isHero : UnitKind → Bool
  | .brianBoru | .sigurd => true
  | _ => false

/-- `isinstance(u, ComandCenter)`: `Tara` derives from `ComandCenter`. -/
def UnitKind.isComandCenter : UnitKind → Bool
  | .comandCenter | .tara => true
  | _ => false

/-- `isinstance(u, SupplyDepot)`. -/
def UnitKind.isSupplyDepot : UnitKind → Bool
  | .supplyDepot => true
  | _ => false

/-- `isinstance(u, Infantry)`: every mobile unit class derives from `Infantry`. -/
def UnitKind.isInfantry : UnitKind → Bool
  | .builder | .spearman | .swordsman | .horseman | .brianBoru | .sigurd => true
  | _ => false

/-- `isinstance(u, Building)`. -/
def UnitKind.isBuilding : UnitKind → Bool
  | .barracks | .stables | .comandCenter | .tara | .supplyDepot => true
  | _ => false

/-- A `pygame.Rect`: integer position and size. -/
structure Rect where
  x : ℤ
  y : ℤ
  w : ℤ
  h : ℤ
  deriving DecidableEq

/-- `pygame.Rect.colliderect`: strict-overlap test on both axes. -/
def colliderect (a b : Rect) : Bool :=
  decide (a.x < b.x + b.w) && decide (b.x < a.x + a.w) &&
  decide (a.y < b.y + b.h) && decide (b.y < a.y + a.h)

/-- The fields of a rts.py `Unit` object that the simulation core reads or
writes (rendering-only fields are omitted). -/
structure Unit where
  kind : UnitKind
  health : ℚ
  maxHealth : ℚ
  cost : ℚ
  defense : ℤ
  power : ℤ
  unitValue : ℤ
  supportedUnits : ℤ
  speed : ℚ
  buildTime : ℚ
  fx : ℚ
  fy : ℚ
  rect : Rect
  destinationX : ℤ
  destinationY : ℤ
  holdPosition : Bool
  deriving DecidableEq

/-- The fields of a rts.py `Player` that the accounting logic touches. -/
structure Player where
  units : List Unit
  supplyDepotCount : ℤ
  comandCenterCount : ℤ
  hasHero : Bool
  supplyDepotLimit : ℤ
  comandCeneterLimit : ℤ
  attackUpgrade : Bool
  resources : ℚ
  totalUnitsValue : ℤ
  supportedUnitsValue : ℤ
  deriving DecidableEq

/-- `Player.add_unit` (rts.py lines 607-630).  The shared map's unit list is
passed alongside the player; the result is the returned boolean together with
the updated player and map list.  `get_unit_to_add` (which, for `Infantry`,
bumps `totalUnitsValue` before the unit is handed to the map) is inlined in
the success branch. -/
def add_unit (p : Player) (m : List Unit) (u : Unit) : Bool × Player × List Unit :=
  if u.kind.isHero && p.hasHero then (false, p, m)
  else if u.kind.isComandCenter && decide (p.comandCenterCount ≥ p.comandCeneterLimit) then
    (false, p, m)
  else
    let p1 := if u.kind.isComandCenter then
      { p with comandCenterCount := p.comandCenterCount + 1 } else p
    if u.kind.isSupplyDepot && decide (p1.supplyDepotCount ≥ p1.supplyDepotLimit) then
      (false, p1, m)
    else
      let p2 := if u.kind.isSupplyDepot then
        { p1 with supplyDepotCount := p1.supplyDepotCount + 1 } else p1
      let enough_supply : Bool := if u.kind.isInfantry then
        decide (u.unitValue ≤ p2.supportedUnitsValue - p2.totalUnitsValue) else true
      if decide (u.cost < p2.resources) && enough_supply then
        (true,
          { p2 with
              resources := p2.resources - u.cost
              hasHero := if u.kind.isHero then true else p2.hasHero
              units := p2.units ++ [u]
              totalUnitsValue := p2.totalUnitsValue +
                (if u.kind.isInfantry then u.unitValue else 0) },
          m ++ [u])
      else (false, p2, m)

/-- `Player.remove_unit` (rts.py lines 632-640): clears the hero flag for a
`Hero`, then removes the first occurrence of the unit from the player's list
(`try/except ValueError` means a missing unit is ignored, as `List.erase`
does) and from the shared map's list. -/
def remove_unit (p : Player) (m : List Unit) (u : Unit) : Player × List Unit :=
  let p1 := if u.kind.isHero then { p with hasHero := false } else p
  ({ p1 with units := p1.units.erase u }, m.erase u)

/-- `Unit.die` together with its overrides: `Infantry.die` additionally
subtracts `unitValue` from `totalUnitsValue`, `Building.die` subtracts
`supportedUnits` from `supportedUnitsValue`, and the `ComandCenter` /
`SupplyDepot` overrides decrement their counters. -/
def unit_die (u : Unit) (p : Player) (m : List Unit) : Player × List Unit :=
  let pm := remove_unit p m u
  let p1 := if u.kind.isInfantry then
    { pm.1 with totalUnitsValue := pm.1.totalUnitsValue - u.unitValue } else pm.1
  let p2 := if u.kind.isBuilding then
    { p1 with supportedUnitsValue := p1.supportedUnitsValue - u.supportedUnits } else p1
  let p3 := if u.kind.isComandCenter then
    { p2 with comandCenterCount := p2.comandCenterCount - 1 } else p2
  let p4 := if u.kind.isSupplyDepot then
    { p3 with supplyDepotCount := p3.supplyDepotCount - 1 } else p3
  (p4, pm.2)

/-- The death branch of `Unit.act` (rts.py lines 753-765): a unit whose
health is not positive dies; otherwise the unit lists are untouched (the
live branch only refreshes `personal_space` and `sight`). -/
def unit_act_death (u : Unit) (p : Player) (m : List Unit) : Player × List Unit :=
  if 0 < u.health then (p, m) else unit_die u p m

/-- Number of `Hero` units in a list. -/
def heroCount (l : List Unit) : ℕ := l.countP (fun u => u.kind.isHero)

/-- `OffensiveInfantry.attack` (rts.py lines 1070-1089), restricted to the
state it mutates on the defender.  `upgrade` is the attacker's player's
`attackUpgrade` flag and `r` the `random.randint(0, 1)` draw taken when the
computed damage is below 1.  The attacker-side bookkeeping (`attacking`,
`attackMoving`, obsession clearing, sound) does not touch the defender and
is omitted. -/
def attack (attacker : Unit) (upgrade : Bool) (r : ℤ) (obss : Unit) : Unit :=
  let damage := attacker.power - obss.defense
  let damage := if damage < 1 then r else damage
  if upgrade then { obss with health := obss.health - ((damage : ℚ) + 2) }
  else { obss with health := obss.health - (damage : ℚ) }

/-- `ProductionQueue.enqueue` (rts.py lines 1285-1292): append if fewer than
5 orders are pending, reporting success. -/
def enqueue (q : List Unit) (u : Unit) : Bool × List Unit :=
  if q.length < 5 then (true, q ++ [u]) else (false, q)

/-- `ProductionQueue.dequeue`: pop the front order, if any. -/
def dequeue (q : List Unit) : Option Unit × List Unit :=
  match q with
  | [] => (none, [])
  | a :: t => (some a, t)

/-- `ProductionQueue.next`: the front order without removing it. -/
def queue_next (q : List Unit) : Option Unit := q.head?

/-- `DequeueAction.tech_act`: pop the back order, if any. -/
def pop_back (q : List Unit) : List Unit :=
  match q with
  | [] => []
  | _ :: _ => q.dropLast

/-- The operations the game ever performs on a production queue:
`enqueue` (unit orders), `dequeue` (completed front order), `pop_back`
(the cancel button) and the per-tick decrement of the front order's
remaining build time (modelled as an arbitrary update of the front). -/
inductive QOp
  | enq (u : Unit)
  | deq
  | popBack
  | modifyFront (f : Unit → Unit)

/-- Apply one queue operation. -/
def applyQOp (q : List Unit) : QOp → List Unit
  | .enq u => (enqueue q u).2
  | .deq => (dequeue q).2
  | .popBack => pop_back q
  | .modifyFront f =>
    match q with
    | [] => []
    | a :: t => f a :: t

/-- Apply a sequence of queue operations, oldest first. -/
def applyQOps (ops : List QOp) (q : List Unit) : List Unit :=
  List.foldl applyQOp q ops

/-- A rts.py `Building` object: its `Unit` fields plus the production state. -/
structure Building where
  unit : Unit
  supportedUnits : ℤ
  resourceIncrease : ℚ
  queue : List Unit
  didInitializeAfterBuild : Bool
  deriving DecidableEq

/-- `Building.is_being_built`: remaining build time still positive. -/
def is_being_built (b : Building) : Bool := decide (0 < b.unit.buildTime)

/-- `Building.init_after_build`: on the first tick after construction ends,
credit the owner's supported population once. -/
def init_after_build (b : Building) (p : Player) : Building × Player :=
  if b.didInitializeAfterBuild then (b, p)
  else ({ b with didInitializeAfterBuild := true },
    { p with supportedUnitsValue := p.supportedUnitsValue + b.supportedUnits })

/-- The production body of `Building.act` (rts.py lines 1576-1592), taken
after the inherited `Unit.act` health/geometry step (modelled separately by
`unit_act_death`): a finished building credits passive resources and
advances the front order of its queue; an order whose remaining build time
reaches zero is dequeued, handed to `Player.add_unit`, and located at the
building's bottom-right corner (its destination too, for `Infantry`).
Python sets the position on the shared object after appending it to the
lists, so the lists hold the positioned unit, as modelled here. -/
def building_act (b : Building) (p : Player) (m : List Unit) (dt : ℚ) :
    Building × Player × List Unit :=
  if is_being_built b then (b, p, m)
  else
    let bp := init_after_build b p
    let b1 := bp.1
    let p1 := { bp.2 with resources := bp.2.resources + b1.resourceIncrease * tick_scale dt }
    match b1.queue with
    | [] => (b1, p1, m)
    | nxt :: rest =>
      let nxt1 := { nxt with buildTime := nxt.buildTime - tick_scale dt }
      if nxt1.buildTime ≤ 0 then
        let px := b1.unit.rect.x + b1.unit.rect.w
        let py := b1.unit.rect.y + b1.unit.rect.h
        let placed := { nxt1 with
          destinationX := if nxt1.kind.isInfantry then px else nxt1.destinationX
          destinationY := if nxt1.kind.isInfantry then py else nxt1.destinationY
          fx := (px : ℚ)
          fy := (py : ℚ)
          rect := { nxt1.rect with x := px, y := py } }
        let r := add_unit p1 m placed
        ({ b1 with queue := rest }, r.2.1, r.2.2)
      else
        ({ b1 with queue := nxt1 :: rest }, p1, m)

/-- `Infantry.get_next_logical_location` (rts.py lines 887-922): move toward
the destination at `speed * tick_scale dt` per axis, snapping when within
one step, then clamp into the map.  Returns the new float position (the
method also stores it and returns its truncation). -/
def get_next_logical_location (u : Unit) (mapWidth mapHeight : ℤ) (dt : ℚ) : ℚ × ℚ :=
  let s := tick_scale dt
  let spd := u.speed * s
  let tx :=
    if u.fx + spd > (u.destinationX : ℚ) ∧ u.fx - spd < (u.destinationX : ℚ) then
      (u.destinationX : ℚ)
    else if (u.destinationX : ℚ) > u.fx then u.fx + spd
    else u.fx - spd
  let ty :=
    if u.fy + spd > (u.destinationY : ℚ) ∧ u.fy - spd < (u.destinationY : ℚ) then
      (u.destinationY : ℚ)
    else if (u.destinationY : ℚ) < u.fy then u.fy - spd
    else u.fy + spd
  (clamp tx 0 ((mapWidth - u.rect.w : ℤ) : ℚ),
   clamp ty 0 ((mapHeight - u.rect.h : ℤ) : ℚ))

/-- One movement tick of `Infantry.act`: `get_next_logical_location`
followed by `set_location(int(tx), int(ty))`, which rounds the stored float
position to the returned integers and moves `rect`. -/
def infantry_move (u : Unit) (mapWidth mapHeight : ℤ) (dt : ℚ) : Unit :=
  let t := get_next_logical_location u mapWidth mapHeight dt
  let nx := pyInt t.1
  let ny := pyInt t.2
  { u with fx := (nx : ℚ), fy := (ny : ℚ), rect := { u.rect with x := nx, y := ny } }

/-- `OffensiveInfantry.get_next_logical_location` position semantics: a unit
holding position keeps `(int(fx), int(fy))`; otherwise it moves as
`Infantry` does.  (The obsession-acquisition branch only rewrites the
destination, which is quantified over in the movement theorems.) -/
def offensive_move (u : Unit) (mapWidth mapHeight : ℤ) (dt : ℚ) : Unit :=
  if u.holdPosition then
    let nx := pyInt u.fx
    let ny := pyInt u.fy
    { u with fx := (nx : ℚ), fy := (ny : ℚ), rect := { u.rect with x := nx, y := ny } }
  else infantry_move u mapWidth mapHeight dt

/-- One movement command issued to a unit before a tick: the elapsed time,
the destination in force, and whether the unit holds position. -/
structure MoveCmd where
  dt : ℚ
  destX : ℤ
  destY : ℤ
  hold : Bool

/-- Run a sequence of movement ticks, installing each command's destination
and hold flag before stepping. -/
def apply_moves (u : Unit) (mapWidth mapHeight : ℤ) (cmds : List MoveCmd) : Unit :=
  List.foldl
    (fun v c =>
      offensive_move
        { v with destinationX := c.destX, destinationY := c.destY, holdPosition := c.hold }
        mapWidth mapHeight c.dt)
    u cmds

/-- The unit is inside the map: both the float position and the integer
rect respect `0 ≤ pos ≤ map size - unit size` on each axis. -/
def InBounds (u : Unit) (mapWidth mapHeight : ℤ) : Prop :=
  0 ≤ u.fx ∧ u.fx ≤ ((mapWidth - u.rect.w : ℤ) : ℚ) ∧
  0 ≤ u.fy ∧ u.fy ≤ ((mapHeight - u.rect.h : ℤ) : ℚ) ∧
  0 ≤ u.rect.x ∧ u.rect.x ≤ mapWidth - u.rect.w ∧
  0 ≤ u.rect.y ∧ u.rect.y ≤ mapHeight - u.rect.h

/-- `BrianBoru.act` / `Sigurd.act` regeneration step (rts.py lines
1492-1496): gain `2 * tick_scale dt` health, clamped to `maxHealth`. -/
def hero_regen_act (u : Unit) (dt : ℚ) : Unit :=
  let h := u.health + 2 * tick_scale dt
  if h > u.maxHealth then { u with health := u.maxHealth } else { u with health := h }

/-- `Map.is_colliding_with_unit` (rts.py lines 457-461). -/
def is_colliding_with_unit (m : List Unit) (r : Rect) : Bool :=
  m.any (fun u => colliderect u.rect r)

/-- The `Builder` fields that `build_building_at` reads or writes. -/
structure BuilderState where
  toBuild : Option Unit
  building : Bool
  selectingToBuild : Bool
  destinationX : ℤ
  destinationY : ℤ
  deriving DecidableEq

/-- `Builder.build_building_at` (rts.py lines 1165-1182): the collision test
uses the building-sized rect anchored at the click point `(x, y)`, but the
building itself is then located *centered* on the click point, handed to
`Player.add_unit`, and the builder walks to its top-left corner. -/
def build_building_at (bs : BuilderState) (p : Player) (m : List Unit) (x y : ℤ) :
    Bool × BuilderState × Player × List Unit :=
  match bs.toBuild with
  | none => (false, bs, p, m)
  | some tb =>
    let r : Rect := ⟨x, y, tb.rect.w, tb.rect.h⟩
    if is_colliding_with_unit m r then (false, bs, p, m)
    else
      let px := pyInt ((x : ℚ) - (1 / 2 : ℚ) * (tb.rect.w : ℚ))
      let py := pyInt ((y : ℚ) - (1 / 2 : ℚ) * (tb.rect.h : ℚ))
      let placed := { tb with
        fx := (px : ℚ)
        fy := (py : ℚ)
        rect := { tb.rect with x := px, y := py } }
      let res := add_unit p m placed
      (true,
        { bs with
          toBuild := some placed
          building := true
          destinationX := placed.rect.x
          destinationY := placed.rect.y
          selectingToBuild := false },
        res.2.1, res.2.2)

/-- The unit-list mutations a `Player` undergoes during a game, starting
from construction (`units = []`, `hasHero = false`): `add_unit` calls,
deaths of owned units (`die` is only ever invoked by a unit present in its
owner's list), and `DropSpearmanAction`, which appends a fresh `Spearman`
to both lists directly. -/
inductive Reach : Player → List Unit → Prop where
  | init (p : Player) (m : List Unit) : p.units = [] → p.hasHero = false → Reach p m
  | add (p : Player) (m : List Unit) (u : Unit) : Reach p m →
      Reach (add_unit p m u).2.1 (add_unit p m u).2.2
  | die (p : Player) (m : List Unit) (u : Unit) : Reach p m → u ∈ p.units →
      Reach (unit_die u p m).1 (unit_die u p m).2
  | drop (p : Player) (m : List Unit) (s : Unit) : Reach p m →
      s.kind = UnitKind.spearman →
      Reach { p with units := p.units ++ [s] } (m ++ [s])

/-! Concrete sample values, with the stats the corresponding rts.py
constructors install, used to instantiate the theorems. -/

/-- A `Spearman` as constructed in rts.py (health 70, cost 60, power 1). -/
def spearman0 : Unit :=
  { kind := .spearman, health := 70, maxHealth := 70, cost := 60, defense := 0,
    power := 1, unitValue := 1, supportedUnits := 1, speed := 3, buildTime := 200,
    fx := 100, fy := 100, rect := ⟨100, 100, 30, 30⟩,
    destinationX := 100, destinationY := 100, holdPosition := false }

/-- A `Swordsman` as constructed in rts.py (health 100, cost 90, power 2). -/
def swordsman0 : Unit :=
  { kind := .swordsman, health := 100, maxHealth := 100, cost := 90, defense := 0,
    power := 2, unitValue := 1, supportedUnits := 1, speed := 3, buildTime := 250,
    fx := 100, fy := 100, rect := ⟨100, 100, 30, 30⟩,
    destinationX := 100, destinationY := 100, holdPosition := false }

/-- A defender whose defense (1) is at least the spearman's power (1). -/
def tank0 : Unit := { spearman0 with defense := 1 }

/-- A `ComandCenter` as constructed in rts.py (cost 400, 100 x 100). -/
def cc0 : Unit :=
  { kind := .comandCenter, health := 10000, maxHealth := 10000, cost := 400,
    defense := 0, power := 1, unitValue := 1, supportedUnits := 20, speed := 3,
    buildTime := 900, fx := 0, fy := 0, rect := ⟨0, 0, 100, 100⟩,
    destinationX := 100, destinationY := 100, holdPosition := false }

/-- A `Barracks` as constructed in rts.py (cost 150, 90 x 90), finished. -/
def bar0 : Unit :=
  { kind := .barracks, health := 2000, maxHealth := 2000, cost := 150,
    defense := 0, power := 1, unitValue := 1, supportedUnits := 1, speed := 3,
    buildTime := 0, fx := 0, fy := 0, rect := ⟨0, 0, 90, 90⟩,
    destinationX := 100, destinationY := 100, holdPosition := false }

/-- A `BrianBoru` hero as constructed in rts.py (health 1000, cost 400). -/
def brian0 : Unit :=
  { kind := .brianBoru, health := 1000, maxHealth := 1000, cost := 400,
    defense := 0, power := 10, unitValue := 1, supportedUnits := 1, speed := 6,
    buildTime := 900, fx := 100, fy := 100, rect := ⟨100, 100, 40, 40⟩,
    destinationX := 100, destinationY := 100, holdPosition := false }

/-- A freshly constructed `Player` (rts.py `Player.__init__`) except for the
resource balance, here 25 as in the spec's insufficient-funds scenario. -/
def p25 : Player :=
  { units := [], supplyDepotCount := 0, comandCenterCount := 0, hasHero := false,
    supplyDepotLimit := 30, comandCeneterLimit := 3, attackUpgrade := false,
    resources := 25, totalUnitsValue := 0, supportedUnitsValue := 0 }

/-- A freshly constructed `Player` with the default 800 resources. -/
def p800 : Player := { p25 with resources := 800 }

/-- A player that already owns a hero. -/
def pHero : Player := { p800 with units := [brian0], hasHero := true }

/-- An existing map unit occupying the square from (140, 140) to (160, 160). -/
def e0 : Unit := { spearman0 with fx := 140, fy := 140, rect := ⟨140, 140, 20, 20⟩ }

/-- A builder about to place `bar0`, not yet in building mode. -/
def bs0 : BuilderState :=
  { toBuild := some bar0, building := false, selectingToBuild := true,
    destinationX := 0, destinationY := 0 }

/-- A pending spearman order with one logical tick of build time left. -/
def spear1 : Unit := { spearman0 with buildTime := 1 }

/-- A finished `Barracks` building at (100, 100) whose queue holds the
spearman order `spear1`. -/
def bld0 : Building :=
  { unit := { bar0 with fx := 100, fy := 100, rect := ⟨100, 100, 90, 90⟩ },
    supportedUnits := 1, resourceIncrease := 1 / 1000,
    queue := [spear1], didInitializeAfterBuild := true }

/-- A unit inside the 3000 x 3000 map used for the movement witness. -/
def inb0 : Unit := spearman0

/-- A player whose resource balance exactly equals the spearman's cost. -/
def p60 : Player := { p25 with resources := 60 }

/-- A spearman that has just been killed. -/
def dead0 : Unit := { spearman0 with health := 0 }

/-- A player owning only the dead spearman. -/
def pDead : Player := { p25 with units := [dead0] }

/-! Helper lemmas. -/

/-- Batteries' computable `Rat.floor` agrees with the floor of `ℚ`. -/
theorem pyInt_eq_floor (q : ℚ) (h : 0 ≤ q) : pyInt q = ⌊q⌋ := by
  unfold pyInt
  rw [if_pos h, Rat.floor_def', Rat.floor_def]

/-- The output of `clamp` lies between its bounds when they are ordered. -/
theorem clamp_mem (v lo hi : ℚ) (h : lo ≤ hi) :
    lo ≤ clamp v lo hi ∧ clamp v lo hi ≤ hi := by
  unfold clamp
  split_ifs <;> constructor <;> linarith

/-- Truncation of a rational between `0` and an integer stays between them. -/
theorem pyInt_bounds (q : ℚ) (n : ℤ) (h0 : 0 ≤ q) (hn : q ≤ (n : ℚ)) :
    0 ≤ pyInt q ∧ pyInt q ≤ n := by
  rw [pyInt_eq_floor q h0]
  refine ⟨Int.floor_nonneg.mpr h0, ?_⟩
  calc ⌊q⌋ ≤ ⌊(n : ℚ)⌋ := Int.floor_mono hn
    _ = n := Int.floor_intCast n

/-! Claim theorems. -/

/-- C10: `Player.add_unit` rejects a unit whose cost exactly equals the
player's resource balance, because the resource check is the strict
comparison `u.cost < self.resources`. -/
theorem C10_cost_equal_rejected (p : Player) (m : List Unit) (u : Unit)
    (h : u.cost = p.resources) : (add_unit p m u).1 = false := by
  unfold add_unit
  split_ifs <;> simp_all <;> split_ifs <;> simp_all

/-- Witness for C10 at a spearman costing 60 against a balance of 60. -/
theorem C10_cost_equal_rejected_witness : (add_unit p60 [] spearman0).1 = false :=
  C10_cost_equal_rejected p60 [] spearman0 rfl

/-- C1 fails as stated: rejecting a `ComandCenter` on the resource check
still increments `comandCenterCount`, because the counter is bumped before
the cost test.  With 25 resources and a 400-cost command center, `add_unit`
returns false yet the counter changes from 0 to 1. -/
theorem C1_counterexample :
    (add_unit p25 [] cc0).1 = false ∧
    (add_unit p25 [] cc0).2.1.comandCenterCount ≠ p25.comandCenterCount := by
  decide

/-- C1 amended: a rejected `add_unit` leaves the resources, hero flag,
population totals, unit list and map list unchanged, but when the unit is a
`ComandCenter` or `SupplyDepot` that passes its count check and then fails
the resource or supply check, the corresponding counter is incremented by
one anyway. -/
theorem C1_rejection_effect (p : Player) (m : List Unit) (u : Unit)
    (h : (add_unit p m u).1 = false) :
    (add_unit p m u).2.1.resources = p.resources ∧
    (add_unit p m u).2.1.hasHero = p.hasHero ∧
    (add_unit p m u).2.1.totalUnitsValue = p.totalUnitsValue ∧
    (add_unit p m u).2.1.supportedUnitsValue = p.supportedUnitsValue ∧
    (add_unit p m u).2.1.units = p.units ∧
    (add_unit p m u).2.2 = m ∧
    ((add_unit p m u).2.1.comandCenterCount = p.comandCenterCount ∨
      (u.kind.isComandCenter = true ∧
        (add_unit p m u).2.1.comandCenterCount = p.comandCenterCount + 1)) ∧
    ((add_unit p m u).2.1.supplyDepotCount = p.supplyDepotCount ∨
      (u.kind.isSupplyDepot = true ∧
        (add_unit p m u).2.1.supplyDepotCount = p.supplyDepotCount + 1)) := by
  unfold add_unit at *
  split_ifs at * <;> simp_all <;> split_ifs at * <;> simp_all

/-- Witness for the amended C1 at the command-center rejection. -/
theorem C1_rejection_effect_witness :
    (add_unit p25 [] cc0).2.1.resources = p25.resources ∧
    (add_unit p25 [] cc0).2.1.hasHero = p25.hasHero ∧
    (add_unit p25 [] cc0).2.1.totalUnitsValue = p25.totalUnitsValue ∧
    (add_unit p25 [] cc0).2.1.supportedUnitsValue = p25.supportedUnitsValue ∧
    (add_unit p25 [] cc0).2.1.units = p25.units ∧
    (add_unit p25 [] cc0).2.2 = [] ∧
    ((add_unit p25 [] cc0).2.1.comandCenterCount = p25.comandCenterCount ∨
      (cc0.kind.isComandCenter = true ∧
        (add_unit p25 [] cc0).2.1.comandCenterCount = p25.comandCenterCount + 1)) ∧
    ((add_unit p25 [] cc0).2.1.supplyDepotCount = p25.supplyDepotCount ∨
      (cc0.kind.isSupplyDepot = true ∧
        (add_unit p25 [] cc0).2.1.supplyDepotCount = p25.supplyDepotCount + 1)) :=
  C1_rejection_effect p25 [] cc0 (by decide)

/-- C2: one attack reduces the defender's health by exactly
`max (power - defense) r` for the random draw `r` in `{0, 1}`, plus a flat
2 exactly when the attack upgrade is researched; for power 2, defense 0 and
no upgrade the damage is deterministically 2. -/
theorem C2_attack_damage (attacker : Unit) (upgrade : Bool) (r : ℤ) (obss : Unit)
    (hr : r = 0 ∨ r = 1) :
    obss.health - (attack attacker upgrade r obss).health =
      ((max (attacker.power - obss.defense) r : ℤ) : ℚ) +
        (if upgrade then 2 else 0) ∧
    (attacker.power = 2 → obss.defense = 0 → upgrade = false →
      (attack attacker upgrade r obss).health = obss.health - 2) := by
  have hm : max (attacker.power - obss.defense) r =
      (if attacker.power - obss.defense < 1 then r else attacker.power - obss.defense) := by
    rcases hr with h | h <;> subst h <;> split <;> omega
  constructor
  · rw [hm]
    unfold attack
    split_ifs <;> push_cast <;> simp_all
  · intro h2 h0 hu
    subst hu
    unfold attack
    rw [h2, h0]
    norm_num

/-- Witness for C2: a swordsman (power 2) striking a spearman (defense 0)
without the upgrade at draw 0. -/
theorem C2_attack_damage_witness :
    spearman0.health - (attack swordsman0 false 0 spearman0).health =
      ((max (swordsman0.power - spearman0.defense) 0 : ℤ) : ℚ) +
        (if false then 2 else 0) ∧
    (attack swordsman0 false 0 spearman0).health = spearman0.health - 2 :=
  ⟨(C2_attack_damage swordsman0 false 0 spearman0 (Or.inl rfl)).1,
   (C2_attack_damage swordsman0 false 0 spearman0 (Or.inl rfl)).2 rfl rfl rfl⟩

/-- C3 fails as stated: with defense at least power the computed damage
falls below 1 and is replaced by the random draw, which can be 0.  A
spearman (power 1) attacking a defense-1 target at draw 0 leaves its health
unchanged, so a hit of at least 1 damage is not guaranteed. -/
theorem C3_counterexample :
    (attack spearman0 false 0 tank0).health = tank0.health ∧
    ¬ ((attack spearman0 false 0 tank0).health ≤ tank0.health - 1) := by
  norm_num [attack, spearman0, tank0]

/-- C3 amended: with defense at least power and no upgrade, one attack
reduces the defender's health by exactly the random draw `r` in `{0, 1}`:
the hit deals damage 1 when the draw is 1 and damage 0 when it is 0, so
zero-damage hits are possible. -/
theorem C3_floor_damage (attacker : Unit) (obss : Unit) (r : ℤ) (upgrade : Bool)
    (hd : attacker.power ≤ obss.defense) (hr : r = 0 ∨ r = 1) (hu : upgrade = false) :
    obss.health - (attack attacker upgrade r obss).health = (r : ℚ) := by
  subst hu
  simp only [attack, if_pos (show attacker.power - obss.defense < 1 by omega)]
  simp

/-- Witness for the amended C3 at draw 0 on a defense-1 target. -/
theorem C3_floor_damage_witness :
    tank0.health - (attack spearman0 false 0 tank0).health = ((0 : ℤ) : ℚ) :=
  C3_floor_damage spearman0 tank0 0 false (by decide) (Or.inl rfl) rfl

/-- Every single queue operation keeps the queue within capacity 5. -/
theorem applyQOp_length (q : List Unit) (op : QOp) (h : q.length ≤ 5) :
    (applyQOp q op).length ≤ 5 := by
  cases op with
  | enq u =>
    simp only [applyQOp, enqueue]
    split_ifs with hlt <;> simp <;> omega
  | deq =>
    cases q with
    | nil => simp [applyQOp, dequeue]
    | cons a t =>
      simp only [applyQOp, dequeue, List.length_cons] at *
      omega
  | popBack =>
    cases q with
    | nil => simp [applyQOp, pop_back]
    | cons a t =>
      simp only [applyQOp, pop_back, List.length_dropLast, List.length_cons] at *
      omega
  | modifyFront f => cases q <;> simp_all [applyQOp]

/-- Any sequence of queue operations keeps the queue within capacity 5. -/
theorem applyQOps_length (ops : List QOp) :
    ∀ q : List Unit, q.length ≤ 5 → (applyQOps ops q).length ≤ 5 := by
  induction ops with
  | nil => intro q h; simpa [applyQOps] using h
  | cons op t ih =>
    intro q h
    have : applyQOps (op :: t) q = applyQOps t (applyQOp q op) := rfl
    rw [this]
    exact ih _ (applyQOp_length q op h)

/-- C4: `enqueue` fails and leaves the queue unchanged at 5 or more pending
orders, appends at the back and succeeds below 5, and consequently the
length of a production queue (starting empty, under any sequence of queue
operations) never exceeds 5. -/
theorem C4_enqueue_bounded (q : List Unit) (u : Unit) (ops : List QOp) :
    (5 ≤ q.length → enqueue q u = (false, q)) ∧
    (q.length < 5 → enqueue q u = (true, q ++ [u])) ∧
    (applyQOps ops []).length ≤ 5 := by
  refine ⟨?_, ?_, applyQOps_length ops [] (by simp)⟩
  · intro h
    unfold enqueue
    rw [if_neg (by omega)]
  · intro h
    unfold enqueue
    rw [if_pos h]

/-- Witness for C4: a full queue of five spearman orders rejects a sixth,
a one-element queue accepts, and a concrete run stays within capacity. -/
theorem C4_enqueue_bounded_witness :
    enqueue (List.replicate 5 spearman0) spearman0 = (false, List.replicate 5 spearman0) ∧
    enqueue [spearman0] spearman0 = (true, [spearman0] ++ [spearman0]) ∧
    (applyQOps [QOp.enq spearman0, QOp.deq] []).length ≤ 5 :=
  ⟨(C4_enqueue_bounded (List.replicate 5 spearman0) spearman0 []).1 (by simp),
   (C4_enqueue_bounded [spearman0] spearman0 []).2.1 (by simp),
   (C4_enqueue_bounded [] spearman0 [QOp.enq spearman0, QOp.deq]).2.2⟩

/-- Removing the first occurrence of an element drops one satisfying
element from a predicate count when the removed element satisfies it. -/
theorem countP_erase (pr : Unit → Bool) (u : Unit) (l : List Unit) (hu : u ∈ l) :
    (l.erase u).countP pr = l.countP pr - (if pr u then 1 else 0) := by
  induction l with
  | nil => simp at hu
  | cons a t ih =>
    by_cases hau : a = u
    · subst hau
      simp [List.erase_cons, List.countP_cons]
    · have hut : u ∈ t := by
        rcases List.mem_cons.mp hu with h | h
        · exact absurd h.symm hau
        · exact h
      have hle : (if pr u then 1 else 0) ≤ t.countP pr := by
        split_ifs with hp
        · exact List.countP_pos_iff.mpr ⟨u, hut, hp⟩
        · omega
      rw [List.erase_cons, if_neg (by simpa using hau)]
      simp only [List.countP_cons, ih hut]
      omega

/-- `unit_die` erases the unit from both the owner's and the map's list. -/
theorem unit_die_units (u : Unit) (p : Player) (m : List Unit) :
    (unit_die u p m).1.units = p.units.erase u ∧ (unit_die u p m).2 = m.erase u := by
  unfold unit_die remove_unit
  split_ifs <;> simp

/-- `unit_die` clears the hero flag exactly for heroes. -/
theorem unit_die_hasHero (u : Unit) (p : Player) (m : List Unit) :
    (unit_die u p m).1.hasHero = (if u.kind.isHero = true then false else p.hasHero) := by
  unfold unit_die remove_unit
  split_ifs <;> simp

/-- An element occurring at most once is gone after `List.erase`. -/
theorem not_mem_erase_of_count (u : Unit) (l : List Unit)
    (hu : l.count u ≤ 1) : u ∉ l.erase u := by
  by_cases hm : u ∈ l
  · rw [← List.count_eq_zero]
    have h := countP_erase (fun x => x == u) u l hm
    simp only [beq_self_eq_true, if_pos] at h
    simp only [List.count, h]
    have h2 : l.countP (fun x => x == u) = l.count u := rfl
    omega
  · intro hc
    exact hm (List.mem_of_mem_erase hc)

/-- C7: hero regeneration is clamped so health never exceeds `maxHealth`,
an attack never increases the defender's health (so the clamp invariant is
preserved by every per-tick health mutation), and a unit whose health is
not positive at the start of its `act` call is removed from both its
owner's unit list and the map's unit list (absent from both afterwards,
given that it was not duplicated in either). -/
theorem C7_health_clamp_and_death_removal :
    (∀ (u : Unit) (dt : ℚ), (hero_regen_act u dt).health ≤ u.maxHealth) ∧
    (∀ (attacker : Unit) (upgrade : Bool) (r : ℤ) (obss : Unit), r = 0 ∨ r = 1 →
      (attack attacker upgrade r obss).health ≤ obss.health) ∧
    (∀ (u : Unit) (p : Player) (m : List Unit), u.health ≤ 0 →
      p.units.count u ≤ 1 → m.count u ≤ 1 →
      u ∉ (unit_act_death u p m).1.units ∧ u ∉ (unit_act_death u p m).2) := by
  refine ⟨?_, ?_, ?_⟩
  · intro u dt
    simp only [hero_regen_act]
    split_ifs with h
    · simp
    · simpa using not_lt.mp h
  · intro attacker upgrade r obss hr
    have h0q : (0 : ℚ) ≤ (r : ℚ) := by
      have h0 : (0 : ℤ) ≤ r := by rcases hr with h | h <;> omega
      exact_mod_cast h0
    unfold attack
    split_ifs with h1 <;> simp <;> split_ifs with h2 <;>
      first
      | linarith
      | (have hpd : (1 : ℚ) ≤ (attacker.power : ℚ) - (obss.defense : ℚ) := by
           exact_mod_cast not_lt.mp h2
         linarith)
  · intro u p m hh hc1 hc2
    unfold unit_act_death
    rw [if_neg (not_lt.mpr hh)]
    rw [(unit_die_units u p m).1, (unit_die_units u p m).2]
    exact ⟨not_mem_erase_of_count u p.units hc1, not_mem_erase_of_count u m hc2⟩

/-- Witness for C7: Brian Boru regenerating for a second, a plain swordsman
hit at draw 1, and a dead spearman acting while on both lists. -/
theorem C7_health_clamp_and_death_removal_witness :
    (hero_regen_act brian0 1).health ≤ brian0.maxHealth ∧
    (attack swordsman0 false 1 spearman0).health ≤ spearman0.health ∧
    (dead0 ∉ (unit_act_death dead0 pDead [dead0]).1.units ∧
      dead0 ∉ (unit_act_death dead0 pDead [dead0]).2) :=
  ⟨C7_health_clamp_and_death_removal.1 brian0 1,
   C7_health_clamp_and_death_removal.2.1 swordsman0 false 1 spearman0 (Or.inr rfl),
   C7_health_clamp_and_death_removal.2.2 dead0 pDead [dead0] (by decide) (by decide)
     (by decide)⟩

/-- An `add_unit` call either leaves the unit list and hero flag unchanged
(on rejection) or appends the unit, raising the hero flag for a hero; a
hero is never appended when the flag is already up. -/
theorem add_unit_units_hasHero (p : Player) (m : List Unit) (u : Unit) :
    ((add_unit p m u).2.1.units = p.units ∧ (add_unit p m u).2.1.hasHero = p.hasHero) ∨
    ((add_unit p m u).2.1.units = p.units ++ [u] ∧
      (add_unit p m u).2.1.hasHero = (if u.kind.isHero = true then true else p.hasHero) ∧
      ¬(u.kind.isHero = true ∧ p.hasHero = true)) := by
  unfold add_unit
  split_ifs <;> simp_all <;> split_ifs <;> simp_all

/-- The hero bookkeeping invariant: every reachable player state has at
most one hero, and `hasHero` is up exactly when it has one. -/
theorem reach_hero_invariant {p : Player} {m : List Unit} (h : Reach p m) :
    heroCount p.units ≤ 1 ∧ (p.hasHero = true ↔ heroCount p.units = 1) := by
  induction h with
  | init p m h1 h2 => simp [heroCount, h1, h2]
  | add p m u hr ih =>
    rcases add_unit_units_hasHero p m u with ⟨h1, h2⟩ | ⟨h1, h2, h3⟩
    · rw [h1, h2]
      exact ih
    · rw [h1, h2]
      by_cases hh : u.kind.isHero = true
      · have hph : ¬ p.hasHero = true := fun hp => h3 ⟨hh, hp⟩
        have h0 : heroCount p.units = 0 := by
          rcases ih with ⟨le1, iff1⟩
          have hne := mt iff1.mpr hph
          omega
        simp only [heroCount, List.countP_append] at *
        simp [hh, h0]
      · simp only [heroCount, List.countP_append] at *
        simp [hh]
        simpa using ih
  | die p m u hr hu ih =>
    rw [(unit_die_units u p m).1, unit_die_hasHero u p m]
    have hcnt := countP_erase (fun x => x.kind.isHero) u p.units hu
    by_cases hh : u.kind.isHero = true
    · have hpos : 0 < p.units.countP (fun x => x.kind.isHero) :=
        List.countP_pos_iff.mpr ⟨u, hu, hh⟩
      rcases ih with ⟨le1, iff1⟩
      simp only [heroCount] at *
      rw [if_pos hh] at hcnt
      simp [hh, hcnt]
      omega
    · rw [if_neg hh] at hcnt
      simp only [heroCount] at *
      simp [hh, hcnt]
      simpa using ih
  | drop p m s hr hs ih =>
    have hsh : s.kind.isHero = false := by rw [hs]; rfl
    simp only [heroCount, List.countP_append] at *
    simp [hsh]
    simpa using ih

/-- C8: every reachable player state owns at most one hero, and `add_unit`
on a player whose hero flag is up rejects any hero immediately, leaving the
entire player state and the map list unchanged. -/
theorem C8_at_most_one_hero :
    (∀ (p : Player) (m : List Unit), Reach p m → heroCount p.units ≤ 1) ∧
    (∀ (p : Player) (m : List Unit) (u : Unit), p.hasHero = true →
      u.kind.isHero = true → add_unit p m u = (false, p, m)) := by
  constructor
  · intro p m h
    exact (reach_hero_invariant h).1
  · intro p m u hp hu
    unfold add_unit
    rw [if_pos (by simp [hu, hp])]

/-- Witness for C8: the freshly constructed player is reachable and
hero-free, and a player already holding Brian Boru rejects a second one. -/
theorem C8_at_most_one_hero_witness :
    heroCount p25.units ≤ 1 ∧ add_unit pHero [] brian0 = (false, pHero, []) :=
  ⟨C8_at_most_one_hero.1 p25 [] (Reach.init p25 [] rfl rfl),
   C8_at_most_one_hero.2 pHero [] brian0 rfl rfl⟩

/-- C9 fails as stated: the collision test anchors the building-sized rect
at the click point, but the building is placed centered on it.  Clicking at
(200, 200) with a 90 x 90 barracks pending checks (200, 200, 90, 90),
misses the unit at (140, 140, 20, 20), and therefore succeeds — yet the
placed footprint (155, 155, 90, 90) overlaps that unit, so a placement
whose target rectangle collides is not rejected. -/
theorem C9_counterexample :
    colliderect ⟨155, 155, 90, 90⟩ e0.rect = true ∧
    (build_building_at bs0 p800 [e0] 200 200).1 = true ∧
    (build_building_at bs0 p800 [e0] 200 200).2.2.2 =
      [e0, { bar0 with fx := 155, fy := 155, rect := ⟨155, 155, 90, 90⟩ }] := by
  refine ⟨by decide, ?_, ?_⟩ <;>
    norm_num [build_building_at, bs0, p800, p25, e0, bar0, spearman0, add_unit,
      is_colliding_with_unit, colliderect, pyInt, Rat.floor_def',
      UnitKind.isHero, UnitKind.isComandCenter, UnitKind.isSupplyDepot, UnitKind.isInfantry]

/-- C9 amended: the placement attempt is rejected, with no state change,
exactly when the building-sized rectangle anchored at the click point
overlaps an existing unit; otherwise the building is located centered on
the click point (top-left at the truncation of click minus half the size),
handed to `Player.add_unit`, and the builder enters building mode walking
to that corner. -/
theorem C9_build_placement (bs : BuilderState) (p : Player) (m : List Unit)
    (x y : ℤ) (tb : Unit) (htb : bs.toBuild = some tb) :
    (is_colliding_with_unit m ⟨x, y, tb.rect.w, tb.rect.h⟩ = true →
      build_building_at bs p m x y = (false, bs, p, m)) ∧
    (is_colliding_with_unit m ⟨x, y, tb.rect.w, tb.rect.h⟩ = false →
      build_building_at bs p m x y =
        (true,
          { bs with
            toBuild := some { tb with
              fx := ((pyInt ((x : ℚ) - (1 / 2 : ℚ) * (tb.rect.w : ℚ))) : ℚ)
              fy := ((pyInt ((y : ℚ) - (1 / 2 : ℚ) * (tb.rect.h : ℚ))) : ℚ)
              rect := { tb.rect with
                x := pyInt ((x : ℚ) - (1 / 2 : ℚ) * (tb.rect.w : ℚ))
                y := pyInt ((y : ℚ) - (1 / 2 : ℚ) * (tb.rect.h : ℚ)) } }
            building := true
            destinationX := pyInt ((x : ℚ) - (1 / 2 : ℚ) * (tb.rect.w : ℚ))
            destinationY := pyInt ((y : ℚ) - (1 / 2 : ℚ) * (tb.rect.h : ℚ))
            selectingToBuild := false },
          (add_unit p m { tb with
            fx := ((pyInt ((x : ℚ) - (1 / 2 : ℚ) * (tb.rect.w : ℚ))) : ℚ)
            fy := ((pyInt ((y : ℚ) - (1 / 2 : ℚ) * (tb.rect.h : ℚ))) : ℚ)
            rect := { tb.rect with
              x := pyInt ((x : ℚ) - (1 / 2 : ℚ) * (tb.rect.w : ℚ))
              y := pyInt ((y : ℚ) - (1 / 2 : ℚ) * (tb.rect.h : ℚ)) } }).2.1,
          (add_unit p m { tb with
            fx := ((pyInt ((x : ℚ) - (1 / 2 : ℚ) * (tb.rect.w : ℚ))) : ℚ)
            fy := ((pyInt ((y : ℚ) - (1 / 2 : ℚ) * (tb.rect.h : ℚ))) : ℚ)
            rect := { tb.rect with
              x := pyInt ((x : ℚ) - (1 / 2 : ℚ) * (tb.rect.w : ℚ))
              y := pyInt ((y : ℚ) - (1 / 2 : ℚ) * (tb.rect.h : ℚ)) } }).2.2)) := by
  constructor
  · intro hcol
    unfold build_building_at
    rw [htb]
    simp [hcol]
  · intro hcol
    unfold build_building_at
    rw [htb]
    simp [hcol]

/-- Witness for the amended C9: clicking at (150, 150) collides at the
anchored rect and is a silent no-op, while clicking at (500, 500) succeeds. -/
theorem C9_build_placement_witness :
    build_building_at bs0 p800 [e0] 150 150 = (false, bs0, p800, [e0]) ∧
    (build_building_at bs0 p800 [e0] 500 500).1 = true := by
  constructor
  · exact (C9_build_placement bs0 p800 [e0] 150 150 bar0 rfl).1 (by decide)
  · have h := (C9_build_placement bs0 p800 [e0] 500 500 bar0 rfl).2 (by decide)
    rw [h]

/-- One `Infantry` movement tick always lands inside the map, whatever the
starting position, because the new position is clamped on both axes. -/
theorem infantry_move_inBounds (u : Unit) (mw mh : ℤ) (dt : ℚ)
    (hw : 0 ≤ mw - u.rect.w) (hh : 0 ≤ mh - u.rect.h) :
    InBounds (infantry_move u mw mh dt) mw mh := by
  obtain ⟨tx, htx⟩ : ∃ t, (get_next_logical_location u mw mh dt).1 =
      clamp t 0 ((mw - u.rect.w : ℤ) : ℚ) := ⟨_, rfl⟩
  obtain ⟨ty, hty⟩ : ∃ t, (get_next_logical_location u mw mh dt).2 =
      clamp t 0 ((mh - u.rect.h : ℤ) : ℚ) := ⟨_, rfl⟩
  have hwq : (0 : ℚ) ≤ ((mw - u.rect.w : ℤ) : ℚ) := by exact_mod_cast hw
  have hhq : (0 : ℚ) ≤ ((mh - u.rect.h : ℤ) : ℚ) := by exact_mod_cast hh
  obtain ⟨ha1, ha2⟩ := clamp_mem tx 0 _ hwq
  obtain ⟨hb1, hb2⟩ := clamp_mem ty 0 _ hhq
  obtain ⟨hc1, hc2⟩ := pyInt_bounds _ _ ha1 ha2
  obtain ⟨hd1, hd2⟩ := pyInt_bounds _ _ hb1 hb2
  simp only [infantry_move, htx, hty, InBounds]
  refine ⟨by exact_mod_cast hc1, by exact_mod_cast hc2, by exact_mod_cast hd1,
    by exact_mod_cast hd2, hc1, hc2, hd1, hd2⟩

/-- An `OffensiveInfantry` movement tick preserves being in bounds: a unit
holding position only truncates its stored position, and a moving one is
clamped. -/
theorem offensive_move_inBounds (u : Unit) (mw mh : ℤ) (dt : ℚ)
    (h : InBounds u mw mh) : InBounds (offensive_move u mw mh dt) mw mh := by
  obtain ⟨h1, h2, h3, h4, h5, h6, h7, h8⟩ := h
  unfold offensive_move
  split_ifs with hhold
  · obtain ⟨ha1, ha2⟩ := pyInt_bounds u.fx (mw - u.rect.w) h1 h2
    obtain ⟨hb1, hb2⟩ := pyInt_bounds u.fy (mh - u.rect.h) h3 h4
    dsimp only [InBounds]
    refine ⟨by exact_mod_cast ha1, by exact_mod_cast ha2, by exact_mod_cast hb1,
      by exact_mod_cast hb2, ha1, ha2, hb1, hb2⟩
  · exact infantry_move_inBounds u mw mh dt (by omega) (by omega)

/-- C6: starting inside the map, after any sequence of movement ticks (any
nonnegative elapsed times, any destinations, any hold flags) a mobile
unit's position still satisfies `0 <= x <= map width - unit width` and the
same on the y axis, for both the stored float position and the rect. -/
theorem C6_movement_in_bounds (u : Unit) (mw mh : ℤ) (cmds : List MoveCmd)
    (hdt : ∀ c ∈ cmds, 0 ≤ c.dt) (h : InBounds u mw mh) :
    InBounds (apply_moves u mw mh cmds) mw mh := by
  induction cmds generalizing u with
  | nil => simpa [apply_moves] using h
  | cons c t ih =>
    have step : apply_moves u mw mh (c :: t) =
        apply_moves
          (offensive_move
            { u with destinationX := c.destX, destinationY := c.destY, holdPosition := c.hold }
            mw mh c.dt)
          mw mh t := rfl
    rw [step]
    refine ih _ (fun d hd => hdt d (List.mem_cons_of_mem c hd)) ?_
    apply offensive_move_inBounds
    exact h

/-- Witness for C6: a spearman on the 3000 x 3000 map stepping one second
toward (2995, 2995). -/
theorem C6_movement_in_bounds_witness :
    InBounds (apply_moves inb0 3000 3000 [⟨1, 2995, 2995, false⟩]) 3000 3000 :=
  C6_movement_in_bounds inb0 3000 3000 [⟨1, 2995, 2995, false⟩]
    (by intro c hc; simp only [List.mem_singleton] at hc; rw [hc]; norm_num)
    (by norm_num [InBounds, inb0, spearman0])

/-- C5: on a tick of a finished building with a non-empty production queue,
only the front order's remaining build time is decremented, by the
tick-scaled delta; when it reaches zero or below, the order is dequeued and
the resulting unit — located at the building's bottom-right corner, which
is also the destination for `Infantry` — is handed to the owning player
through `Player.add_unit`, so all of its checks apply. -/
theorem C5_building_production (b : Building) (p : Player) (m : List Unit) (dt : ℚ)
    (nxt : Unit) (rest : List Unit)
    (hfin : b.unit.buildTime ≤ 0) (hq : b.queue = nxt :: rest) :
    (0 < nxt.buildTime - tick_scale dt →
      (building_act b p m dt).1.queue =
        { nxt with buildTime := nxt.buildTime - tick_scale dt } :: rest ∧
      (building_act b p m dt).2.1.units = p.units ∧
      (building_act b p m dt).2.2 = m) ∧
    (nxt.buildTime - tick_scale dt ≤ 0 →
      (building_act b p m dt).1.queue = rest ∧
      (building_act b p m dt).2 =
        (add_unit
          { (init_after_build b p).2 with
            resources := (init_after_build b p).2.resources +
              (init_after_build b p).1.resourceIncrease * tick_scale dt }
          m
          { nxt with
            buildTime := nxt.buildTime - tick_scale dt
            destinationX := if nxt.kind.isInfantry = true
              then b.unit.rect.x + b.unit.rect.w else nxt.destinationX
            destinationY := if nxt.kind.isInfantry = true
              then b.unit.rect.y + b.unit.rect.h else nxt.destinationY
            fx := ((b.unit.rect.x + b.unit.rect.w : ℤ) : ℚ)
            fy := ((b.unit.rect.y + b.unit.rect.h : ℤ) : ℚ)
            rect := { nxt.rect with
              x := b.unit.rect.x + b.unit.rect.w
              y := b.unit.rect.y + b.unit.rect.h } }).2) := by
  have hnb : is_being_built b = false := by
    unfold is_being_built
    simpa using not_lt.mpr hfin
  constructor
  · intro hgt
    cases hb : b.didInitializeAfterBuild <;>
      · simp only [building_act, hnb, init_after_build, hb, Bool.false_eq_true, if_false,
          if_true, hq]
        rw [if_neg (not_le.mpr hgt)]
        simp
  · intro hle
    cases hb : b.didInitializeAfterBuild <;>
      · simp only [building_act, hnb, init_after_build, hb, Bool.false_eq_true, if_false,
          if_true, hq]
        rw [if_pos hle]
        simp

/-- Witness for C5: the finished barracks completing its spearman order on
a one-second tick (60 logical ticks against 1 remaining). -/
theorem C5_building_production_witness :
    (building_act bld0 p800 [] 1).1.queue = [] ∧
    (building_act bld0 p800 [] 1).2 =
      (add_unit
        { (init_after_build bld0 p800).2 with
          resources := (init_after_build bld0 p800).2.resources +
            (init_after_build bld0 p800).1.resourceIncrease * tick_scale 1 }
        []
        { spear1 with
          buildTime := spear1.buildTime - tick_scale 1
          destinationX := if spear1.kind.isInfantry = true
            then bld0.unit.rect.x + bld0.unit.rect.w else spear1.destinationX
          destinationY := if spear1.kind.isInfantry = true
            then bld0.unit.rect.y + bld0.unit.rect.h else spear1.destinationY
          fx := ((bld0.unit.rect.x + bld0.unit.rect.w : ℤ) : ℚ)
          fy := ((bld0.unit.rect.y + bld0.unit.rect.h : ℤ) : ℚ)
          rect := { spear1.rect with
            x := bld0.unit.rect.x + bld0.unit.rect.w
            y := bld0.unit.rect.y + bld0.unit.rect.h } }).2 :=
  (C5_building_production bld0 p800 [] 1 spear1 [] (by decide) rfl).2
    (by norm_num [spear1, spearman0, tick_scale])

end RTS
